import Mathlib

/-!
Verification development for the BST inference-serving gateway
(bst_export_serverless: production_api.py and serverless_api.py).

Shallow embedding conventions:
- Timestamps are integers (seconds); the code uses datetime arithmetic, which
  is plain affine time arithmetic here.
- Numeric payload entries are rationals; the extraction claims are about
  order structure only, which rationals model exactly.
- The external numeric engines (the TorchScript model artifact, the ONNX
  session, and the softmax they compute over floats) are parameters: each
  backend call is given the engine outcome (raw scores + probability matrix)
  or the exception message the engine raised.  Everything downstream of that
  point (error conversion, top-k extraction, response assembly) is embedded
  from the source.
- The per-key rate-limit storage is keyed by the API key itself; the source
  keys it by a truncated sha-256 of the key, which is an injective indexing
  detail not relevant to any claim.
-/

/-- Rate-limit info dictionary built by check_rate_limit
(production_api.py lines 161-166). -/
structure RateLimitInfo where
  requests_made : Nat
  requests_limit : Nat
  window_seconds : Int
  reset_time : Int
  deriving DecidableEq, Repr

/-- Embeds check_rate_limit (production_api.py lines 122-168), restricted to a
single per-key timestamp list: operates on the stored list of the calling key,
returns (allowed, rate_limit_info, updated list).  When require_auth is false
the function short-circuits to allowed with an empty info dict (modeled as
none) and touches nothing. -/
def check_rate_limit (require_auth : Bool) (max_requests : Nat) (window : Int)
    (now : Int) (ts : List Int) : Bool × Option RateLimitInfo × List Int :=
  if require_auth = false then (true, none, ts)
  else
    let window_start := now - window
    let purged := ts.filter (fun t => window_start < t)
    let current_requests := purged.length
    let allowed : Bool := decide (current_requests < max_requests)
    let ts2 := if allowed then purged ++ [now] else purged
    let info : RateLimitInfo :=
      { requests_made := current_requests + (if allowed then 1 else 0)
        requests_limit := max_requests
        window_seconds := window
        reset_time := window_start + window }
    (allowed, some info, ts2)

/-- Repeated admission checks: fold check_rate_limit over a list of call
times, threading the stored timestamp list (the stored state of one key in
rate_limit_storage). -/
def run_limiter (require_auth : Bool) (max_requests : Nat) (window : Int)
    (init : List Int) (times : List Int) : List Int :=
  times.foldl (fun s t => (check_rate_limit require_auth max_requests window t s).2.2) init

/-- Record stored in api_keys_storage (production_api.py lines 54-63). -/
structure KeyInfo where
  name : String
  rate_limit : Nat
  enabled : Bool
  permissions : List String
  deriving DecidableEq, Repr

/-- The api_keys_storage map. -/
abbrev KeyStore := List (String × KeyInfo)

/-- The rate_limit_storage map (key to timestamp list). -/
abbrev RateStorage := List (String × List Int)

/-- Dictionary lookup in api_keys_storage. -/
def lookupKey (store : KeyStore) (k : String) : Option KeyInfo :=
  (store.find? (fun e => e.1 == k)).map (fun e => e.2)

/-- Read the timestamp list of a key from rate_limit_storage; a missing entry is
the empty list (the source initializes missing entries to []). -/
def getTimestamps (rs : RateStorage) (k : String) : List Int :=
  ((rs.find? (fun e => e.1 == k)).map (fun e => e.2)).getD []

/-- Write the timestamp list of a key back into rate_limit_storage. -/
def setTimestamps (rs : RateStorage) (k : String) (ts : List Int) : RateStorage :=
  if rs.any (fun e => e.1 == k) then
    rs.map (fun e => if e.1 == k then (k, ts) else e)
  else rs ++ [(k, ts)]

/-- The SECURITY_CONFIG fields relevant to the claims
(production_api.py lines 43-50). -/
structure SecurityConfig where
  require_auth : Bool
  rate_limit_requests : Nat
  rate_limit_window : Int
  deriving DecidableEq, Repr

/-- HTTP-level error outcome (an HTTPException): status code and detail. -/
structure HError where
  status : Nat
  detail : String
  deriving DecidableEq, Repr

/-- Embeds verify_api_key (production_api.py lines 170-218).  Returns either
an HTTP error (401 on authentication failure, 429 on quota rejection) or the
record of the key together with the rate-limit info, plus the updated
rate_limit_storage.  The source check `if not api_key` treats both a
missing header and an empty-string header as missing.  check_rate_limit looks
the per-key quota up from the same record that verify_api_key just fetched,
so it is passed info.rate_limit here. -/
def verify_api_key (cfg : SecurityConfig) (store : KeyStore) (rs : RateStorage)
    (apiKey : Option String) (now : Int) :
    Except HError (KeyInfo × Option RateLimitInfo) × RateStorage :=
  if cfg.require_auth = false then
    (.ok ({ name := "No Auth Required", rate_limit := cfg.rate_limit_requests,
            enabled := true, permissions := ["predict"] }, none), rs)
  else
    match apiKey with
    | none => (.error ⟨401, "API key required. Provide via X-API-Key header."⟩, rs)
    | some k =>
      if k = "" then
        (.error ⟨401, "API key required. Provide via X-API-Key header."⟩, rs)
      else
        match lookupKey store k with
        | none => (.error ⟨401, "Invalid or disabled API key"⟩, rs)
        | some info =>
          if info.enabled = false then
            (.error ⟨401, "Invalid or disabled API key"⟩, rs)
          else
            match check_rate_limit cfg.require_auth info.rate_limit
                cfg.rate_limit_window now (getTimestamps rs k) with
            | (allowed, rli, ts2) =>
              let rs2 := setTimestamps rs k ts2
              if allowed then (.ok (info, rli), rs2)
              else (.error ⟨429, "Rate limit exceeded"⟩, rs2)

/-- The PoseData request body (serverless_api.py lines 40-57).  The pydantic
type coercion is reflected in the field types. -/
structure PoseData where
  JnB : List (List (List (List Rat)))
  shuttle : List (List (List Rat))
  pos : List (List (List (List Rat)))
  video_len : List Int
  deriving DecidableEq, Repr

/-- Embeds the two pydantic validators on PoseData
(validate_jnb_shape and validate_video_len, serverless_api.py lines 59-81).
The source test `if not v` on a list is the emptiness test. -/
def validate_pose_data (d : PoseData) : Except String PoseData :=
  if d.JnB.length = 0 then .error "JnB cannot be empty"
  else if (d.JnB.headD []).length = 0 then .error "Sequence length must be > 0"
  else if d.video_len.length ≠ d.JnB.length then
    .error "video_len length must match batch size"
  else .ok d

/-- Shape of a rectangular 2-level nested list (the innermost two axes of an
np.array conversion); none when ragged. -/
def dims2 (x : List (List Rat)) : Option (Nat × Nat) :=
  let m := (x.headD []).length
  if x.all (fun r => r.length == m) then some (x.length, m) else none

/-- Shape of a rectangular 3-level nested list; none when ragged. -/
def dims3 (x : List (List (List Rat))) : Option (Nat × Nat × Nat) :=
  match dims2 (x.headD []) with
  | none => none
  | some d =>
    if x.all (fun r => decide (dims2 r = some d)) then some (x.length, d) else none

/-- Shape of a rectangular 4-level nested list; none when ragged. -/
def dims4 (x : List (List (List (List Rat)))) : Option (Nat × Nat × Nat × Nat) :=
  match dims3 (x.headD []) with
  | none => none
  | some d =>
    if x.all (fun r => decide (dims3 r = some d)) then some (x.length, d) else none

/-- The MODEL_CONFIG fields the gateway reads (base_config defaults:
n_people 2, pose_features 72, n_classes 66; all environment-overridable). -/
structure ModelCfg where
  n_people : Nat
  pose_features : Nat
  n_classes : Nat
  deriving DecidableEq, Repr

/-- The dictionary preprocess_input returns (serverless_api.py lines 212-219). -/
structure Preprocessed where
  JnB : List (List (List (List Rat)))
  shuttle : List (List (List Rat))
  pos : List (List (List (List Rat)))
  video_len : List Int
  batch_size : Nat
  seq_len : Nat
  deriving DecidableEq, Repr

/-- Embeds preprocess_input (serverless_api.py lines 174-222).  The np.array
conversions fail on ragged nesting (caught and re-raised as the wrapped
ValueError); batch and time dimensions are read off the JnB shape; the four
shape comparisons are exactly those of the source; every failure is re-raised as a
ValueError whose message starts with the wrapping text.  Note that no check
whatsoever is made on the values inside video_len, only on its length. -/
def preprocess_input (cfg : ModelCfg) (d : PoseData) : Except String Preprocessed :=
  match dims4 d.JnB, dims3 d.shuttle, dims4 d.pos with
  | some jd, some sd, some pd =>
    let b := jd.1
    let s := jd.2.1
    if jd ≠ (b, s, cfg.n_people, cfg.pose_features) then
      .error "Input preprocessing failed: JnB shape mismatch"
    else if sd ≠ (b, s, 2) then
      .error "Input preprocessing failed: shuttle shape mismatch"
    else if pd ≠ (b, s, cfg.n_people, 2) then
      .error "Input preprocessing failed: pos shape mismatch"
    else if d.video_len.length ≠ b then
      .error "Input preprocessing failed: video_len shape mismatch"
    else .ok ⟨d.JnB, d.shuttle, d.pos, d.video_len, b, s⟩
  | _, _, _ => .error "Input preprocessing failed: array conversion error"

/-- Order used by the top-k model of the primary path: probability
descending.  torch.topk guarantees no order among exactly equal values (on
CPU it runs std::nth_element plus std::sort over value-index pairs whose
comparator inspects the value only), so the model must refine that
unspecified tie order to something deterministic.  It is refined here to
class index DESCENDING on ties, the order a hand trace of the libstdc++
introselect-plus-insertion-sort path produces on the tied row used by the
counterexample below; no theorem in this development relies on any
guaranteed tie direction for this path, only on the value-descending part,
which torch does document. -/
def topkLe (a b : Nat × Rat) : Prop :=
  b.2 < a.2 ∨ (a.2 = b.2 ∧ b.1 ≤ a.1)

instance : DecidableRel topkLe := fun a b =>
  inferInstanceAs (Decidable (b.2 < a.2 ∨ (a.2 = b.2 ∧ b.1 ≤ a.1)))

instance : IsTotal (Nat × Rat) topkLe := by
  constructor
  intro a b
  rcases lt_trichotomy a.2 b.2 with h | h | h
  · exact Or.inr (Or.inl h)
  · rcases Nat.le_total b.1 a.1 with h2 | h2
    · exact Or.inl (Or.inr ⟨h, h2⟩)
    · exact Or.inr (Or.inr ⟨h.symm, h2⟩)
  · exact Or.inl (Or.inl h)

instance : IsTrans (Nat × Rat) topkLe := by
  constructor
  intro a b c hab hbc
  rcases hab with h1 | ⟨h1, h1i⟩
  · rcases hbc with h2 | ⟨h2, _⟩
    · exact Or.inl (h2.trans h1)
    · exact Or.inl (h2 ▸ h1)
  · rcases hbc with h2 | ⟨h2, h2i⟩
    · exact Or.inl (h1 ▸ h2)
    · exact Or.inr ⟨h1.trans h2, h2i.trans h1i⟩

/-- Ascending counterpart (value ascending, ties by position ascending):
the order produced by a stable ascending sort of an enumerated row.  This is
the deterministic refinement used for np.argsort: the numpy quicksort runs as a
stable insertion sort on the sub-16-element arrays the ONNX path sorts. -/
def ascLe (a b : Nat × Rat) : Prop :=
  a.2 < b.2 ∨ (a.2 = b.2 ∧ a.1 ≤ b.1)

instance : DecidableRel ascLe := fun a b =>
  inferInstanceAs (Decidable (a.2 < b.2 ∨ (a.2 = b.2 ∧ a.1 ≤ b.1)))

instance : IsTotal (Nat × Rat) ascLe := by
  constructor
  intro a b
  rcases lt_trichotomy a.2 b.2 with h | h | h
  · exact Or.inl (Or.inl h)
  · rcases Nat.le_total a.1 b.1 with h2 | h2
    · exact Or.inl (Or.inr ⟨h, h2⟩)
    · exact Or.inr (Or.inr ⟨h.symm, h2⟩)
  · exact Or.inr (Or.inl h)

instance : IsTrans (Nat × Rat) ascLe := by
  constructor
  intro a b c hab hbc
  rcases hab with h1 | ⟨h1, h1i⟩
  · rcases hbc with h2 | ⟨h2, _⟩
    · exact Or.inl (h1.trans h2)
    · exact Or.inl (h2 ▸ h1)
  · rcases hbc with h2 | ⟨h2, h2i⟩
    · exact Or.inl (h1 ▸ h2)
    · exact Or.inr ⟨h1.trans h2, h1i.trans h2i⟩

/-- Model of torch.topk(row, k) with sorted=True on one row: defined only
when k is at most the row length (torch raises a selected-index-out-of-range
error otherwise, which the caller catches), and returns the first k entries
of the row enumerated and sorted by probability descending.  The order of
exactly-equal probabilities is unspecified by torch (value-only comparator);
see the topkLe comment for the deterministic refinement chosen here. -/
def torch_topk (k : Nat) (row : List Rat) : Option (List (Nat × Rat)) :=
  if k ≤ row.length then some ((List.insertionSort topkLe row.enum).take k) else none

/-- torch.topk along the last axis of the [batch, n_classes] matrix. -/
def torch_topk_batch (k : Nat) (probs : List (List Rat)) :
    Option (List (List (Nat × Rat))) :=
  probs.mapM (torch_topk k)

/-- Model of np.argsort(xs) on one short row: the stable ascending
permutation of positions. -/
def np_argsort (xs : List Rat) : List Nat :=
  (List.insertionSort ascLe xs.enum).map Prod.fst

/-- Model of np.argpartition(xs, -k)[-k:]: the positions of the k largest
entries.  Defined only when -k is a valid kth (k at most the row length);
numpy raises a kth-out-of-bounds error otherwise, which the caller catches.
The internal order of the selected block is unspecified by numpy; it is
refined here to the stable ascending order, which matches what the
numpy small-array selection produces on the inputs the counterexample uses. -/
def np_argpartition_tail (k : Nat) (xs : List Rat) : Option (List Nat) :=
  if k ≤ xs.length then some ((np_argsort xs).drop (xs.length - k)) else none

/-- Model of np.take_along_axis on one row. -/
def take_along {α : Type} [Inhabited α] (idxs : List Nat) (xs : List α) : List α :=
  idxs.map (fun i => xs.getD i default)

/-- Embeds the ONNX top-5 extraction on one row (serverless_api.py lines
315-324): argpartition selects the top-5 block, the block is sorted by
reversing an ascending argsort, and indices and probabilities are gathered
through that order. -/
def onnx_top5_row (row : List Rat) : Option (List Nat × List Rat) :=
  match np_argpartition_tail 5 row with
  | none => none
  | some sel =>
    let top_probs_unsorted := take_along sel row
    let sorted_order := (np_argsort top_probs_unsorted).reverse
    some (take_along sorted_order sel, take_along sorted_order top_probs_unsorted)

/-- The ONNX top-5 extraction over the whole [batch, n_classes] matrix. -/
def onnx_top5_batch (probs : List (List Rat)) :
    Option (List (List Nat × List Rat)) :=
  probs.mapM onnx_top5_row

/-- Outcome of the external numeric engine when it does not raise: the raw
scores, the probability matrix the source computes from them by softmax
(torch.softmax / scipy softmax over floats, part of the unmodeled numeric
layer), and the measured inference time. -/
structure EngineOut where
  predictions : List (List Rat)
  probabilities : List (List Rat)
  inference_time : Rat
  deriving DecidableEq, Repr

/-- The success dictionary a backend wrapper returns
(serverless_api.py lines 258-268 and 326-336). -/
structure InferSuccess where
  inference_time : Rat
  predictions : List (List Rat)
  probabilities : List (List Rat)
  top_indices : List (List Nat)
  top_probabilities : List (List Rat)
  model_type : String
  deriving DecidableEq, Repr

/-- Result dictionary of a backend wrapper: success true with the prediction
fields, or success false with an error message. -/
inductive InferResult where
  | ok (r : InferSuccess)
  | err (msg : String)
  deriving DecidableEq, Repr

/-- Embeds predict_with_torchscript (serverless_api.py lines 224-274).  Any
exception inside the try block (model load failure, the engine rejecting the
input, torch.topk with k larger than the class axis) is caught and converted
to a success=false dictionary with a wrapped message. -/
def predict_with_torchscript (engine : Except String EngineOut) : InferResult :=
  match engine with
  | .error e => .err ("TorchScript inference failed: " ++ e)
  | .ok out =>
    match torch_topk_batch 5 out.probabilities with
    | none => .err "TorchScript inference failed: selected index k out of range"
    | some tops =>
      .ok { inference_time := out.inference_time
            predictions := out.predictions
            probabilities := out.probabilities
            top_indices := tops.map (fun r => r.map Prod.fst)
            top_probabilities := tops.map (fun r => r.map Prod.snd)
            model_type := "torchscript" }

/-- Embeds predict_with_onnx (serverless_api.py lines 276-342), same
exception-to-result conversion, with the argpartition-based extraction. -/
def predict_with_onnx (engine : Except String EngineOut) : InferResult :=
  match engine with
  | .error e => .err ("ONNX inference failed: " ++ e)
  | .ok out =>
    match onnx_top5_batch out.probabilities with
    | none => .err "ONNX inference failed: kth out of bounds"
    | some tops =>
      .ok { inference_time := out.inference_time
            predictions := out.predictions
            probabilities := out.probabilities
            top_indices := tops.map Prod.fst
            top_probabilities := tops.map Prod.snd
            model_type := "onnx" }

/-- Response metadata block (production_api.py lines 366-371). -/
structure RespMetadata where
  model_type : String
  batch_size : Nat
  seq_len : Nat
  n_classes : Nat
  deriving DecidableEq, Repr

/-- Auth metadata block of the authenticated response
(production_api.py lines 372-376). -/
structure AuthInfoOut where
  api_key_name : String
  rate_limit_remaining : Int
  deriving DecidableEq, Repr

/-- AuthenticatedPredictionResponse (production_api.py lines 76-78 plus the
PredictionResponse fields it extends). -/
structure AuthPredictionResponse where
  success : Bool
  inference_time : Rat
  predictions : List (List Rat)
  probabilities : List (List Rat)
  top_indices : List (List Nat)
  top_probabilities : List (List Rat)
  metadata : RespMetadata
  auth_info : AuthInfoOut
  deriving DecidableEq, Repr

/-- One backend invocation recorded in the instrumentation trace of the
handler model, with the preprocessed input it was given. -/
inductive BackendCall where
  | primary (p : Preprocessed)
  | secondary (p : Preprocessed)
  deriving DecidableEq, Repr

/-- Whether a recorded call went to the secondary (ONNX) backend. -/
def BackendCall.isSecondary : BackendCall → Bool
  | .primary _ => false
  | .secondary _ => true

/-- Assembles the AuthenticatedPredictionResponse from a successful backend
result (production_api.py lines 360-377).  The missing-dict defaults of the
source .get chains collapse to zero remaining quota when no rate-limit info
is present. -/
def mk_response (r : InferSuccess) (p : Preprocessed) (cfg : ModelCfg)
    (info : KeyInfo) (rli : Option RateLimitInfo) : AuthPredictionResponse :=
  { success := true
    inference_time := r.inference_time
    predictions := r.predictions
    probabilities := r.probabilities
    top_indices := r.top_indices
    top_probabilities := r.top_probabilities
    metadata := ⟨r.model_type, p.batch_size, p.seq_len, cfg.n_classes⟩
    auth_info := ⟨info.name,
      (rli.map (fun i => (i.requests_limit : Int) - i.requests_made)).getD 0⟩ }

/-- Embeds the POST /predict request handling of predict_authenticated
(production_api.py lines 333-386) together with the framework steps around
it, in the order the framework actually executes them: the verify_api_key
dependency is resolved first (FastAPI solves endpoint dependencies before
validating the body model), then the pydantic body validation runs (a failure
is a 422 request-validation error), then the handler body: permission check
(403), preprocess_input (a ValueError is mapped to 400), primary backend,
fallback to the secondary backend on failure, 500 when both fail.  The third
component is the instrumentation trace of backend invocations. -/
def predict_authenticated (scfg : SecurityConfig) (mcfg : ModelCfg)
    (engineT engineO : Preprocessed → Except String EngineOut)
    (store : KeyStore) (rs : RateStorage)
    (apiKey : Option String) (d : PoseData) (now : Int) :
    Except HError AuthPredictionResponse × RateStorage × List BackendCall :=
  match verify_api_key scfg store rs apiKey now with
  | (.error e, rs1) => (.error e, rs1, [])
  | (.ok (info, rli), rs1) =>
    match validate_pose_data d with
    | .error m => (.error ⟨422, m⟩, rs1, [])
    | .ok d1 =>
      if "predict" ∉ info.permissions then
        (.error ⟨403, "Insufficient permissions for prediction"⟩, rs1, [])
      else
        match preprocess_input mcfg d1 with
        | .error m => (.error ⟨400, m⟩, rs1, [])
        | .ok p =>
          match predict_with_torchscript (engineT p) with
          | .ok r => (.ok (mk_response r p mcfg info rli), rs1, [.primary p])
          | .err _ =>
            match predict_with_onnx (engineO p) with
            | .ok r =>
              (.ok (mk_response r p mcfg info rli), rs1, [.primary p, .secondary p])
            | .err m => (.error ⟨500, m⟩, rs1, [.primary p, .secondary p])

/-- Probabilities of an extracted block are in non-increasing order. -/
def SortedDescProbs (probs : List Rat) : Prop :=
  probs.Pairwise (fun a b => b ≤ a)

/-- Among entries of an extracted block with exactly equal probabilities, the
one with the lower original class index appears earlier. -/
def TieBreakLowerFirst (out : List (Nat × Rat)) : Prop :=
  out.Pairwise (fun a b => a.2 = b.2 → a.1 < b.1)

instance : DecidableRel (fun (a b : Nat × Rat) => a.2 = b.2 → a.1 < b.1) :=
  fun a b => inferInstanceAs (Decidable (a.2 = b.2 → a.1 < b.1))

instance (out : List (Nat × Rat)) : Decidable (TieBreakLowerFirst out) :=
  inferInstanceAs
    (Decidable (out.Pairwise (fun (a b : Nat × Rat) => a.2 = b.2 → a.1 < b.1)))

/-- One admission check keeps the stored list within the quota and purges
everything at or before now minus the window. -/
lemma check_rate_limit_preserves (q : Nat) (w now : Int) (ts : List Int)
    (hlen : ts.length ≤ q) (hw : 0 ≤ w) :
    ((check_rate_limit true q w now ts).2.2).length ≤ q ∧
      ∀ t ∈ (check_rate_limit true q w now ts).2.2, now - w ≤ t := by
  unfold check_rate_limit
  simp only [Bool.true_eq_false, if_false]
  by_cases h : (ts.filter (fun t => decide (now - w < t))).length < q
  · simp only [h, decide_eq_true_eq, decide_eq_true, if_true]
    constructor
    · simp only [List.length_append, List.length_cons, List.length_nil]
      omega
    · intro t ht
      rcases List.mem_append.1 ht with ht | ht
      · have := List.of_mem_filter ht
        simp only [decide_eq_true_eq] at this
        omega
      · simp only [List.mem_singleton] at ht
        omega
  · simp only [h, decide_eq_false (by exact h), Bool.false_eq_true, if_false]
    constructor
    · exact le_trans (List.length_filter_le _ _) hlen
    · intro t ht
      have := List.of_mem_filter ht
      simp only [decide_eq_true_eq] at this
      omega

/-- The stored list never grows past the quota under repeated checks. -/
lemma run_limiter_length_le (q : Nat) (w : Int) (times : List Int) :
    ∀ ts : List Int, ts.length ≤ q → (run_limiter true q w ts times).length ≤ q := by
  induction times with
  | nil => intro ts h; exact h
  | cons t times ih =>
    intro ts h
    have step : ((check_rate_limit true q w t ts).2.2).length ≤ q := by
      unfold check_rate_limit
      simp only [Bool.true_eq_false, if_false]
      by_cases hc : (ts.filter (fun x => decide (t - w < x))).length < q
      · simp only [hc, decide_eq_true, if_true]
        simp only [List.length_append, List.length_cons, List.length_nil]
        omega
      · simp only [decide_eq_false (by exact hc), Bool.false_eq_true, if_false]
        exact le_trans (List.length_filter_le _ _) h
    exact ih _ step

/-- C10: with auth required, every admission check reports a reset_time equal
to the call time itself (window_start plus the window duration), whatever the
stored timestamps are, so a rejected caller is never told the future instant
at which a quota slot actually frees up. -/
theorem check_rate_limit_reset_time_is_now (q : Nat) (w now : Int) (ts : List Int) :
    ∃ info, (check_rate_limit true q w now ts).2.1 = some info ∧
      info.reset_time = now := by
  unfold check_rate_limit
  simp only [Bool.true_eq_false, if_false]
  refine ⟨_, rfl, ?_⟩
  show now - w + w = now
  omega

/-- C3: with auth required the admission check first purges every timestamp
not strictly newer than now minus the window, admits with the timestamp
appended and the count incremented when the purged count is under the quota,
and rejects with the purged state unchanged otherwise; concretely, with
quota 3 and window 60 the calls at times 0, 10, 20 are admitted, a fourth
call at 30 is rejected, and a call at 70 (window elapsed) is admitted
again. -/
theorem check_rate_limit_spec :
    (∀ (q : Nat) (w now : Int) (ts : List Int),
      check_rate_limit true q w now ts =
        (let purged := ts.filter (fun t => now - w < t)
         if purged.length < q then
           (true, some ⟨purged.length + 1, q, w, now⟩, purged ++ [now])
         else
           (false, some ⟨purged.length, q, w, now⟩, purged))) ∧
    ((check_rate_limit true 3 60 0 []).1 = true ∧
      (check_rate_limit true 3 60 10 (run_limiter true 3 60 [] [0])).1 = true ∧
      (check_rate_limit true 3 60 20 (run_limiter true 3 60 [] [0, 10])).1 = true ∧
      (check_rate_limit true 3 60 30 (run_limiter true 3 60 [] [0, 10, 20])).1 = false ∧
      (check_rate_limit true 3 60 30 (run_limiter true 3 60 [] [0, 10, 20])).2.2 =
        run_limiter true 3 60 [] [0, 10, 20] ∧
      (check_rate_limit true 3 60 70 (run_limiter true 3 60 [] [0, 10, 20])).1 = true) := by
  constructor
  · intro q w now ts
    unfold check_rate_limit
    by_cases h : (ts.filter (fun t => decide (now - w < t))).length < q <;>
      simp [h, RateLimitInfo.mk.injEq]
  · refine ⟨by decide, by decide, by decide, by decide, by decide, by decide⟩

/-- C7: starting from the empty stored state, with a positive window and
non-decreasing call times, after each admission check of the sequence the
stored timestamp list holds at most the quota many entries and every retained
timestamp is at least the current time minus the window duration. -/
theorem run_limiter_invariant (q : Nat) (w : Int) (times pre post : List Int)
    (now : Int) (hw : 0 < w) (hmono : times.Chain' (· ≤ ·))
    (hsplit : times = pre ++ now :: post) :
    (run_limiter true q w [] (pre ++ [now])).length ≤ q ∧
      ∀ t ∈ run_limiter true q w [] (pre ++ [now]), now - w ≤ t := by
  have hfold : run_limiter true q w [] (pre ++ [now]) =
      (check_rate_limit true q w now (run_limiter true q w [] pre)).2.2 := by
    unfold run_limiter
    rw [List.foldl_append]
    rfl
  rw [hfold]
  exact check_rate_limit_preserves q w now _
    (run_limiter_length_le q w pre [] (by simp)) (le_of_lt hw)

/-- Witness for C7 at quota 3, window 60, call times 0, 10, 20. -/
theorem run_limiter_invariant_witness :
    (0 : Int) < 60 ∧ ([0, 10, 20] : List Int).Chain' (· ≤ ·) ∧
      ([0, 10, 20] : List Int) = [0, 10] ++ 20 :: [] ∧
      ((run_limiter true 3 60 [] ([0, 10] ++ [20])).length ≤ 3 ∧
        ∀ t ∈ run_limiter true 3 60 [] ([0, 10] ++ [20]), (20 : Int) - 60 ≤ t) :=
  ⟨by decide,
    List.chain'_cons.2 ⟨by decide, List.chain'_cons.2 ⟨by decide, List.chain'_singleton 20⟩⟩,
    by decide,
    run_limiter_invariant 3 60 [0, 10, 20] [0, 10] [] 20 (by decide)
      (List.chain'_cons.2 ⟨by decide, List.chain'_cons.2 ⟨by decide, List.chain'_singleton 20⟩⟩)
      (by decide)⟩

/-- C6: with auth required, verify_api_key fails with a 401 error exactly
when the supplied key is missing (no header or empty header), absent from the
key store, or present with enabled false; and on every such authentication
failure the rate limiter is never consulted, so the storage (in particular
the per-key timestamp list) is returned unchanged. -/
theorem verify_api_key_auth_failure (cfg : SecurityConfig) (store : KeyStore)
    (rs : RateStorage) (apiKey : Option String) (now : Int)
    (hauth : cfg.require_auth = true) :
    ((∃ d, (verify_api_key cfg store rs apiKey now).1 = .error ⟨401, d⟩) ↔
      (apiKey = none ∨ apiKey = some "" ∨
        ∃ k, apiKey = some k ∧ (lookupKey store k = none ∨
          ∃ info, lookupKey store k = some info ∧ info.enabled = false))) ∧
    ((apiKey = none ∨ apiKey = some "" ∨
        ∃ k, apiKey = some k ∧ (lookupKey store k = none ∨
          ∃ info, lookupKey store k = some info ∧ info.enabled = false)) →
      (verify_api_key cfg store rs apiKey now).2 = rs) := by
  rcases apiKey with _ | k
  · simp [verify_api_key, hauth]
  · by_cases hk : k = ""
    · subst hk
      simp [verify_api_key, hauth]
    · match hlk : lookupKey store k with
      | none => simp [verify_api_key, hauth, hk, hlk]
      | some info =>
        by_cases hen : info.enabled = false
        · simp [verify_api_key, hauth, hk, hlk, hen]
        · simp only [Bool.not_eq_false] at hen
          simp only [verify_api_key, hauth, Bool.true_eq_false, if_false, hk,
            if_neg hk, hlk, hen]
          rcases hcr : check_rate_limit true info.rate_limit
              cfg.rate_limit_window now (getTimestamps rs k) with ⟨allowed, rli, ts2⟩
          cases allowed <;>
            simp [hcr, hk, HError.mk.injEq, hen, hlk]

/-- Witness for C6: a disabled key in the store fails authentication with 401
and leaves the rate-limit storage untouched. -/
theorem verify_api_key_auth_failure_witness :
    ({ require_auth := true, rate_limit_requests := 100,
        rate_limit_window := 3600 } : SecurityConfig).require_auth = true ∧
    (((∃ d, (verify_api_key ⟨true, 100, 3600⟩
            [("demo-api-key-12345", ⟨"Demo Key", 100, false, ["predict"]⟩)] []
            (some "demo-api-key-12345") 0).1 = .error ⟨401, d⟩) ↔
        (some "demo-api-key-12345" = none ∨
          (some "demo-api-key-12345" = some "" ∨
          ∃ k, some "demo-api-key-12345" = some k ∧
            (lookupKey [("demo-api-key-12345",
                ⟨"Demo Key", 100, false, ["predict"]⟩)] k = none ∨
              ∃ info, lookupKey [("demo-api-key-12345",
                  ⟨"Demo Key", 100, false, ["predict"]⟩)] k = some info ∧
                info.enabled = false)))) ∧
      ((some "demo-api-key-12345" = none ∨
          (some "demo-api-key-12345" = some "" ∨
          ∃ k, some "demo-api-key-12345" = some k ∧
            (lookupKey [("demo-api-key-12345",
                ⟨"Demo Key", 100, false, ["predict"]⟩)] k = none ∨
              ∃ info, lookupKey [("demo-api-key-12345",
                  ⟨"Demo Key", 100, false, ["predict"]⟩)] k = some info ∧
                info.enabled = false))) →
        (verify_api_key ⟨true, 100, 3600⟩
            [("demo-api-key-12345", ⟨"Demo Key", 100, false, ["predict"]⟩)] []
            (some "demo-api-key-12345") 0).2 = [])) :=
  ⟨rfl, verify_api_key_auth_failure ⟨true, 100, 3600⟩
    [("demo-api-key-12345", ⟨"Demo Key", 100, false, ["predict"]⟩)] []
    (some "demo-api-key-12345") 0 rfl⟩

/-- C8: a backend wrapper never propagates a failure as an exception: for
every engine outcome it returns either a success result carrying the
prediction fields, or a failure result carrying an error message; an engine
exception is converted into the wrapped error message. -/
theorem backend_wrappers_total : ∀ e : Except String EngineOut,
    ((∃ r, predict_with_torchscript e = .ok r ∧ r.model_type = "torchscript") ∨
      (∃ m, predict_with_torchscript e = .err m)) ∧
    ((∃ r, predict_with_onnx e = .ok r ∧ r.model_type = "onnx") ∨
      (∃ m, predict_with_onnx e = .err m)) ∧
    (∀ msg, predict_with_torchscript (.error msg) =
      .err ("TorchScript inference failed: " ++ msg)) ∧
    (∀ msg, predict_with_onnx (.error msg) =
      .err ("ONNX inference failed: " ++ msg)) := by
  intro e
  refine ⟨?_, ?_, fun msg => rfl, fun msg => rfl⟩
  · match e with
    | .error msg => exact Or.inr ⟨_, rfl⟩
    | .ok out =>
      match h : torch_topk_batch 5 out.probabilities with
      | none =>
        have hres : predict_with_torchscript (.ok out) =
            .err "TorchScript inference failed: selected index k out of range" := by
          simp [predict_with_torchscript, h]
        exact Or.inr ⟨_, hres⟩
      | some tops =>
        have hres : predict_with_torchscript (.ok out) =
            .ok { inference_time := out.inference_time
                  predictions := out.predictions
                  probabilities := out.probabilities
                  top_indices := tops.map (fun r => r.map Prod.fst)
                  top_probabilities := tops.map (fun r => r.map Prod.snd)
                  model_type := "torchscript" } := by
          simp [predict_with_torchscript, h]
        exact Or.inl ⟨_, hres, rfl⟩
  · match e with
    | .error msg => exact Or.inr ⟨_, rfl⟩
    | .ok out =>
      match h : onnx_top5_batch out.probabilities with
      | none =>
        have hres : predict_with_onnx (.ok out) =
            .err "ONNX inference failed: kth out of bounds" := by
          simp [predict_with_onnx, h]
        exact Or.inr ⟨_, hres⟩
      | some tops =>
        have hres : predict_with_onnx (.ok out) =
            .ok { inference_time := out.inference_time
                  predictions := out.predictions
                  probabilities := out.probabilities
                  top_indices := tops.map Prod.fst
                  top_probabilities := tops.map Prod.snd
                  model_type := "onnx" } := by
          simp [predict_with_onnx, h]
        exact Or.inl ⟨_, hres, rfl⟩

/-- C4 counterexample: a structurally well-shaped request whose video_len
entry is 0 (not a positive integer, and not a valid length) passes both the
pydantic validators and preprocess_input: no stage examines the values inside
video_len. -/
theorem preprocess_accepts_invalid_video_len :
    validate_pose_data ⟨[[[[1/2]]]], [[[0, 0]]], [[[[0, 0]]]], [0]⟩ =
      .ok ⟨[[[[1/2]]]], [[[0, 0]]], [[[[0, 0]]]], [0]⟩ ∧
    preprocess_input ⟨1, 1, 6⟩ ⟨[[[[1/2]]]], [[[0, 0]]], [[[[0, 0]]]], [0]⟩ =
      .ok ⟨[[[[1/2]]]], [[[0, 0]]], [[[[0, 0]]]], [0], 1, 1⟩ ∧
    ¬ (0 : Int) > 0 := by
  refine ⟨rfl, rfl, by decide⟩

/-- C4 amended: validation and preprocessing check only the lengths and
shapes; the entry values of video_len are never examined, so replacing
video_len by any integer list of the same length leaves the outcome of
preprocess_input unchanged (and a passing request only guarantees that the
video_len length equals the batch dimension). -/
theorem preprocess_checks_only_video_len_length (cfg : ModelCfg) (d : PoseData)
    (vl : List Int) (hvl : vl.length = d.video_len.length) :
    (∀ p, preprocess_input cfg d = .ok p → d.video_len.length = p.batch_size) ∧
    preprocess_input cfg { d with video_len := vl } =
      (preprocess_input cfg d).map (fun p => { p with video_len := vl }) := by
  unfold preprocess_input
  rcases hj : dims4 d.JnB with _ | jd
  · simp [hj, Except.map]
  · rcases hs : dims3 d.shuttle with _ | sd
    · simp [hj, hs, Except.map]
    · rcases hpp : dims4 d.pos with _ | pd
      · simp [hj, hs, hpp, Except.map]
      · by_cases c1 : jd ≠ (jd.1, jd.2.1, cfg.n_people, cfg.pose_features)
        · simp [hj, hs, hpp, c1, Except.map]
        · by_cases c2 : sd ≠ (jd.1, jd.2.1, 2)
          · simp [hj, hs, hpp, c1, c2, Except.map]
          · by_cases c3 : pd ≠ (jd.1, jd.2.1, cfg.n_people, 2)
            · simp [hj, hs, hpp, c1, c2, c3, Except.map]
            · by_cases c4 : d.video_len.length ≠ jd.1
              · simp [hj, hs, hpp, c1, c2, c3, c4, hvl, Except.map]
              · simp [hj, hs, hpp, c1, c2, c3, c4, hvl, Except.map]
                exact not_not.mp c4

/-- Witness for the amended C4: the valid request with video_len entry 1 can
have its video_len replaced by the invalid [0] without changing acceptance. -/
theorem preprocess_checks_only_video_len_length_witness :
    ([0] : List Int).length =
      (⟨[[[[1/2]]]], [[[0, 0]]], [[[[0, 0]]]], [1]⟩ : PoseData).video_len.length ∧
    ((∀ p, preprocess_input ⟨1, 1, 6⟩ ⟨[[[[1/2]]]], [[[0, 0]]], [[[[0, 0]]]], [1]⟩ =
        .ok p →
        (⟨[[[[1/2]]]], [[[0, 0]]], [[[[0, 0]]]], [1]⟩ : PoseData).video_len.length =
          p.batch_size) ∧
      preprocess_input ⟨1, 1, 6⟩
          { (⟨[[[[1/2]]]], [[[0, 0]]], [[[[0, 0]]]], [1]⟩ : PoseData) with
            video_len := [0] } =
        (preprocess_input ⟨1, 1, 6⟩
            ⟨[[[[1/2]]]], [[[0, 0]]], [[[[0, 0]]]], [1]⟩).map
          (fun p => { p with video_len := [0] })) :=
  ⟨rfl, preprocess_checks_only_video_len_length ⟨1, 1, 6⟩
    ⟨[[[[1/2]]]], [[[0, 0]]], [[[[0, 0]]]], [1]⟩ [0] rfl⟩

/-- Reading back the list just written for a key yields that list. -/
lemma getTimestamps_set (rs : RateStorage) (k : String) (ts : List Int) :
    getTimestamps (setTimestamps rs k ts) k = ts := by
  induction rs with
  | nil => simp [getTimestamps, setTimestamps]
  | cons e rs ih =>
    by_cases he : (e.1 == k) = true
    · have hany : (e :: rs).any (fun x => x.1 == k) = true := by
        simp [List.any_cons, he]
      unfold setTimestamps getTimestamps
      rw [if_pos hany, List.map_cons, if_pos he,
        @List.find?_cons_of_pos _ (fun x => x.1 == k) (k, ts) _ (by simp)]
      simp
    · by_cases hall : rs.any (fun x => x.1 == k) = true
      · have hany : (e :: rs).any (fun x => x.1 == k) = true := by
          simp [List.any_cons, hall]
        unfold setTimestamps at ih ⊢
        rw [if_pos hall] at ih
        unfold getTimestamps at ih ⊢
        rw [if_pos hany, List.map_cons, if_neg he,
          @List.find?_cons_of_neg _ (fun x => x.1 == k) e _ he]
        exact ih
      · have hany : ¬ (e :: rs).any (fun x => x.1 == k) = true := by
          simp only [List.any_cons, Bool.or_eq_true]
          rintro (h | h)
          · exact he h
          · exact hall h
        unfold setTimestamps at ih ⊢
        rw [if_neg hall] at ih
        unfold getTimestamps at ih ⊢
        rw [if_neg hany, List.cons_append,
          @List.find?_cons_of_neg _ (fun x => x.1 == k) e _ he]
        exact ih

/-- C1 counterexample: a request that fails structural validation (JnB shape
mismatch against the configured dimensions) terminates with a 400 error and
no backend is invoked, but the per-key timestamp list is NOT the same
afterwards: authentication and rate admission run as a dependency before the
shape check, so the request timestamp 0 has been appended for the key even
though the request was rejected. -/
theorem predict_consumes_quota_on_invalid_input :
    (predict_authenticated ⟨true, 100, 3600⟩ ⟨2, 72, 66⟩
        (fun _ => .error "unused") (fun _ => .error "unused")
        [("demo-api-key-12345", ⟨"Demo Key", 100, true, ["predict"]⟩)] []
        (some "demo-api-key-12345")
        ⟨[[[[1/2]]]], [[[0, 0]]], [[[[0, 0]]]], [1]⟩ 0).1 =
      .error ⟨400, "Input preprocessing failed: JnB shape mismatch"⟩ ∧
    (predict_authenticated ⟨true, 100, 3600⟩ ⟨2, 72, 66⟩
        (fun _ => .error "unused") (fun _ => .error "unused")
        [("demo-api-key-12345", ⟨"Demo Key", 100, true, ["predict"]⟩)] []
        (some "demo-api-key-12345")
        ⟨[[[[1/2]]]], [[[0, 0]]], [[[[0, 0]]]], [1]⟩ 0).2.2 = [] ∧
    getTimestamps (predict_authenticated ⟨true, 100, 3600⟩ ⟨2, 72, 66⟩
        (fun _ => .error "unused") (fun _ => .error "unused")
        [("demo-api-key-12345", ⟨"Demo Key", 100, true, ["predict"]⟩)] []
        (some "demo-api-key-12345")
        ⟨[[[[1/2]]]], [[[0, 0]]], [[[[0, 0]]]], [1]⟩ 0).2.1
      "demo-api-key-12345" = [0] ∧
    getTimestamps ([] : RateStorage) "demo-api-key-12345" = [] :=
  ⟨rfl, rfl, rfl, rfl⟩

/-- C1 amended: when auth is required and the key authenticates with quota
room, a request whose preprocessing fails still terminates with a 400 error
and an empty backend trace, but its timestamp has already been appended to
the per-key list by the rate admission that ran first: quota is consumed. -/
theorem predict_invalid_input_400_but_quota_consumed
    (scfg : SecurityConfig) (mcfg : ModelCfg)
    (engineT engineO : Preprocessed → Except String EngineOut)
    (store : KeyStore) (rs : RateStorage) (k : String) (info : KeyInfo)
    (d : PoseData) (now : Int) (msg : String)
    (hauth : scfg.require_auth = true)
    (hk : ¬ k = "")
    (hlk : lookupKey store k = some info)
    (hen : info.enabled = true)
    (hperm : "predict" ∈ info.permissions)
    (hq : ((getTimestamps rs k).filter
        (fun t => now - scfg.rate_limit_window < t)).length < info.rate_limit)
    (hval : validate_pose_data d = .ok d)
    (hpre : preprocess_input mcfg d = .error msg) :
    predict_authenticated scfg mcfg engineT engineO store rs (some k) d now =
      (.error ⟨400, msg⟩,
        setTimestamps rs k
          (((getTimestamps rs k).filter
              (fun t => now - scfg.rate_limit_window < t)) ++ [now]),
        []) ∧
    getTimestamps
        (predict_authenticated scfg mcfg engineT engineO store rs
          (some k) d now).2.1 k =
      ((getTimestamps rs k).filter
          (fun t => now - scfg.rate_limit_window < t)) ++ [now] := by
  have hres : predict_authenticated scfg mcfg engineT engineO store rs
      (some k) d now =
      (.error ⟨400, msg⟩,
        setTimestamps rs k
          (((getTimestamps rs k).filter
              (fun t => now - scfg.rate_limit_window < t)) ++ [now]),
        []) := by
    unfold predict_authenticated verify_api_key check_rate_limit
    simp [hauth, hk, hlk, hen, hq, hperm, hval, hpre]
  exact ⟨hres, by rw [hres]; exact getTimestamps_set rs k _⟩

/-- Witness for the amended C1 at a concrete admitted key and a concrete
shape-mismatch request. -/
theorem predict_invalid_input_400_but_quota_consumed_witness :
    ({ require_auth := true, rate_limit_requests := 100,
        rate_limit_window := 3600 } : SecurityConfig).require_auth = true ∧
    ¬ "demo-api-key-12345" = "" ∧
    lookupKey [("demo-api-key-12345", ⟨"Demo Key", 100, true, ["predict"]⟩)]
      "demo-api-key-12345" = some ⟨"Demo Key", 100, true, ["predict"]⟩ ∧
    (⟨"Demo Key", 100, true, ["predict"]⟩ : KeyInfo).enabled = true ∧
    "predict" ∈ (⟨"Demo Key", 100, true, ["predict"]⟩ : KeyInfo).permissions ∧
    ((getTimestamps [] "demo-api-key-12345").filter
        (fun t => (0 : Int) - 3600 < t)).length <
      (⟨"Demo Key", 100, true, ["predict"]⟩ : KeyInfo).rate_limit ∧
    validate_pose_data ⟨[[[[1/2]]]], [[[0, 0]]], [[[[0, 0]]]], [1]⟩ =
      .ok ⟨[[[[1/2]]]], [[[0, 0]]], [[[[0, 0]]]], [1]⟩ ∧
    preprocess_input ⟨2, 72, 66⟩ ⟨[[[[1/2]]]], [[[0, 0]]], [[[[0, 0]]]], [1]⟩ =
      .error "Input preprocessing failed: JnB shape mismatch" ∧
    (predict_authenticated ⟨true, 100, 3600⟩ ⟨2, 72, 66⟩
        (fun _ => .error "primary down") (fun _ => .error "secondary down")
        [("demo-api-key-12345", ⟨"Demo Key", 100, true, ["predict"]⟩)] []
        (some "demo-api-key-12345")
        ⟨[[[[1/2]]]], [[[0, 0]]], [[[[0, 0]]]], [1]⟩ 0 =
      (.error ⟨400, "Input preprocessing failed: JnB shape mismatch"⟩,
        setTimestamps [] "demo-api-key-12345"
          (((getTimestamps [] "demo-api-key-12345").filter
              (fun t => (0 : Int) - 3600 < t)) ++ [0]),
        []) ∧
      getTimestamps (predict_authenticated ⟨true, 100, 3600⟩ ⟨2, 72, 66⟩
          (fun _ => .error "primary down") (fun _ => .error "secondary down")
          [("demo-api-key-12345", ⟨"Demo Key", 100, true, ["predict"]⟩)] []
          (some "demo-api-key-12345")
          ⟨[[[[1/2]]]], [[[0, 0]]], [[[[0, 0]]]], [1]⟩ 0).2.1
        "demo-api-key-12345" =
        ((getTimestamps [] "demo-api-key-12345").filter
            (fun t => (0 : Int) - 3600 < t)) ++ [0]) :=
  ⟨rfl, by decide, rfl, rfl, by decide, by decide, rfl, rfl,
    predict_invalid_input_400_but_quota_consumed ⟨true, 100, 3600⟩ ⟨2, 72, 66⟩
      (fun _ => .error "primary down") (fun _ => .error "secondary down")
      [("demo-api-key-12345", ⟨"Demo Key", 100, true, ["predict"]⟩)] []
      "demo-api-key-12345" ⟨"Demo Key", 100, true, ["predict"]⟩
      ⟨[[[[1/2]]]], [[[0, 0]]], [[[[0, 0]]]], [1]⟩ 0
      "Input preprocessing failed: JnB shape mismatch"
      rfl (by decide) rfl rfl (by decide) (by decide) rfl rfl⟩

/-- A successful ONNX wrapper result always carries the onnx identifier. -/
lemma predict_with_onnx_ok_model_type (e : Except String EngineOut)
    (r : InferSuccess) (h : predict_with_onnx e = .ok r) :
    r.model_type = "onnx" := by
  match e with
  | .error msg => simp [predict_with_onnx] at h
  | .ok out =>
    match hb : onnx_top5_batch out.probabilities with
    | none => simp [predict_with_onnx, hb] at h
    | some tops =>
      simp only [predict_with_onnx, hb, InferResult.ok.injEq] at h
      rw [← h]

/-- C5: when the pipeline reaches inference and the primary backend fails,
the secondary backend is invoked exactly once on the same preprocessed input
(the instrumentation trace is exactly one primary call followed by one
secondary call); if the secondary succeeds the call returns the assembled
success response whose metadata.model_type is the secondary identifier, and
if the secondary also fails the call terminates with a 500 error carrying the
secondary backend error detail. -/
theorem predict_fallback_once (scfg : SecurityConfig) (mcfg : ModelCfg)
    (engineT engineO : Preprocessed → Except String EngineOut)
    (store : KeyStore) (rs : RateStorage) (apiKey : Option String)
    (d : PoseData) (now : Int) (info : KeyInfo) (rli : Option RateLimitInfo)
    (rs1 : RateStorage) (p : Preprocessed) (m : String)
    (hv : verify_api_key scfg store rs apiKey now = (.ok (info, rli), rs1))
    (hval : validate_pose_data d = .ok d)
    (hperm : "predict" ∈ info.permissions)
    (hpre : preprocess_input mcfg d = .ok p)
    (hfail : predict_with_torchscript (engineT p) = .err m) :
    (predict_authenticated scfg mcfg engineT engineO store rs apiKey d now).2.2 =
      [.primary p, .secondary p] ∧
    ((predict_authenticated scfg mcfg engineT engineO store rs apiKey
        d now).2.2.countP BackendCall.isSecondary = 1) ∧
    (∀ r, predict_with_onnx (engineO p) = .ok r →
      (predict_authenticated scfg mcfg engineT engineO store rs apiKey d now).1 =
        .ok (mk_response r p mcfg info rli) ∧
      (mk_response r p mcfg info rli).metadata.model_type = "onnx") ∧
    (∀ m2, predict_with_onnx (engineO p) = .err m2 →
      (predict_authenticated scfg mcfg engineT engineO store rs apiKey d now).1 =
        .error ⟨500, m2⟩) := by
  have hbase : predict_authenticated scfg mcfg engineT engineO store rs apiKey d now =
      (match predict_with_onnx (engineO p) with
        | .ok r => (.ok (mk_response r p mcfg info rli), rs1, [.primary p, .secondary p])
        | .err m2 => (.error ⟨500, m2⟩, rs1, [.primary p, .secondary p])) := by
    unfold predict_authenticated
    simp only [hv, hval, hpre, hfail, if_neg (not_not_intro hperm)]
  refine ⟨?_, ?_, ?_, ?_⟩
  · rw [hbase]
    match predict_with_onnx (engineO p) with
    | .ok r => rfl
    | .err m2 => rfl
  · rw [hbase]
    match predict_with_onnx (engineO p) with
    | .ok r => rfl
    | .err m2 => rfl
  · intro r hr
    rw [hbase, hr]
    exact ⟨rfl, predict_with_onnx_ok_model_type (engineO p) r hr⟩
  · intro m2 hm2
    rw [hbase, hm2]

/-- Witness for C5: primary engine down, secondary succeeding on a six-class
probability row. -/
theorem predict_fallback_once_witness :
    verify_api_key ⟨true, 100, 3600⟩
        [("demo-api-key-12345", ⟨"Demo Key", 100, true, ["predict"]⟩)] []
        (some "demo-api-key-12345") 0 =
      (.ok (⟨"Demo Key", 100, true, ["predict"]⟩, some ⟨1, 100, 3600, 0⟩),
        [("demo-api-key-12345", [0])]) ∧
    validate_pose_data ⟨[[[[1/2]]]], [[[0, 0]]], [[[[0, 0]]]], [1]⟩ =
      .ok ⟨[[[[1/2]]]], [[[0, 0]]], [[[[0, 0]]]], [1]⟩ ∧
    "predict" ∈ (⟨"Demo Key", 100, true, ["predict"]⟩ : KeyInfo).permissions ∧
    preprocess_input ⟨1, 1, 6⟩ ⟨[[[[1/2]]]], [[[0, 0]]], [[[[0, 0]]]], [1]⟩ =
      .ok ⟨[[[[1/2]]]], [[[0, 0]]], [[[[0, 0]]]], [1], 1, 1⟩ ∧
    predict_with_torchscript
        ((fun _ => .error "primary boom")
          (⟨[[[[1/2]]]], [[[0, 0]]], [[[[0, 0]]]], [1], 1, 1⟩ : Preprocessed)) =
      .err "TorchScript inference failed: primary boom" ∧
    ((predict_authenticated ⟨true, 100, 3600⟩ ⟨1, 1, 6⟩
        (fun _ => .error "primary boom")
        (fun _ => .ok ⟨[[1, 0, 0, 0, 0, 0]],
          [[30/100, 25/100, 25/100, 10/100, 6/100, 4/100]], 0⟩)
        [("demo-api-key-12345", ⟨"Demo Key", 100, true, ["predict"]⟩)] []
        (some "demo-api-key-12345")
        ⟨[[[[1/2]]]], [[[0, 0]]], [[[[0, 0]]]], [1]⟩ 0).2.2 =
      [.primary ⟨[[[[1/2]]]], [[[0, 0]]], [[[[0, 0]]]], [1], 1, 1⟩,
        .secondary ⟨[[[[1/2]]]], [[[0, 0]]], [[[[0, 0]]]], [1], 1, 1⟩] ∧
    ((predict_authenticated ⟨true, 100, 3600⟩ ⟨1, 1, 6⟩
        (fun _ => .error "primary boom")
        (fun _ => .ok ⟨[[1, 0, 0, 0, 0, 0]],
          [[30/100, 25/100, 25/100, 10/100, 6/100, 4/100]], 0⟩)
        [("demo-api-key-12345", ⟨"Demo Key", 100, true, ["predict"]⟩)] []
        (some "demo-api-key-12345")
        ⟨[[[[1/2]]]], [[[0, 0]]], [[[[0, 0]]]], [1]⟩ 0).2.2.countP
        BackendCall.isSecondary = 1) ∧
    (∀ r, predict_with_onnx
        ((fun _ => .ok ⟨[[1, 0, 0, 0, 0, 0]],
          [[30/100, 25/100, 25/100, 10/100, 6/100, 4/100]], 0⟩)
          (⟨[[[[1/2]]]], [[[0, 0]]], [[[[0, 0]]]], [1], 1, 1⟩ : Preprocessed)) =
        .ok r →
      (predict_authenticated ⟨true, 100, 3600⟩ ⟨1, 1, 6⟩
          (fun _ => .error "primary boom")
          (fun _ => .ok ⟨[[1, 0, 0, 0, 0, 0]],
            [[30/100, 25/100, 25/100, 10/100, 6/100, 4/100]], 0⟩)
          [("demo-api-key-12345", ⟨"Demo Key", 100, true, ["predict"]⟩)] []
          (some "demo-api-key-12345")
          ⟨[[[[1/2]]]], [[[0, 0]]], [[[[0, 0]]]], [1]⟩ 0).1 =
        .ok (mk_response r ⟨[[[[1/2]]]], [[[0, 0]]], [[[[0, 0]]]], [1], 1, 1⟩
          ⟨1, 1, 6⟩ ⟨"Demo Key", 100, true, ["predict"]⟩
          (some ⟨1, 100, 3600, 0⟩)) ∧
      (mk_response r ⟨[[[[1/2]]]], [[[0, 0]]], [[[[0, 0]]]], [1], 1, 1⟩
          ⟨1, 1, 6⟩ ⟨"Demo Key", 100, true, ["predict"]⟩
          (some ⟨1, 100, 3600, 0⟩)).metadata.model_type = "onnx") ∧
    (∀ m2, predict_with_onnx
        ((fun _ => .ok ⟨[[1, 0, 0, 0, 0, 0]],
          [[30/100, 25/100, 25/100, 10/100, 6/100, 4/100]], 0⟩)
          (⟨[[[[1/2]]]], [[[0, 0]]], [[[[0, 0]]]], [1], 1, 1⟩ : Preprocessed)) =
        .err m2 →
      (predict_authenticated ⟨true, 100, 3600⟩ ⟨1, 1, 6⟩
          (fun _ => .error "primary boom")
          (fun _ => .ok ⟨[[1, 0, 0, 0, 0, 0]],
            [[30/100, 25/100, 25/100, 10/100, 6/100, 4/100]], 0⟩)
          [("demo-api-key-12345", ⟨"Demo Key", 100, true, ["predict"]⟩)] []
          (some "demo-api-key-12345")
          ⟨[[[[1/2]]]], [[[0, 0]]], [[[[0, 0]]]], [1]⟩ 0).1 =
        .error ⟨500, m2⟩)) :=
  ⟨rfl, rfl, by decide, rfl, rfl,
    predict_fallback_once ⟨true, 100, 3600⟩ ⟨1, 1, 6⟩
      (fun _ => .error "primary boom")
      (fun _ => .ok ⟨[[1, 0, 0, 0, 0, 0]],
        [[30/100, 25/100, 25/100, 10/100, 6/100, 4/100]], 0⟩)
      [("demo-api-key-12345", ⟨"Demo Key", 100, true, ["predict"]⟩)] []
      (some "demo-api-key-12345")
      ⟨[[[[1/2]]]], [[[0, 0]]], [[[[0, 0]]]], [1]⟩ 0
      ⟨"Demo Key", 100, true, ["predict"]⟩ (some ⟨1, 100, 3600, 0⟩)
      [("demo-api-key-12345", [0])]
      ⟨[[[[1/2]]]], [[[0, 0]]], [[[[0, 0]]]], [1], 1, 1⟩
      "TorchScript inference failed: primary boom"
      rfl rfl (by decide) rfl rfl⟩

/-- A successful Option-mapM sends members both ways: every output element
comes from some input element, and every input element produces some output
element. -/
lemma mapM_some_mem {α β : Type} (f : α → Option β) :
    ∀ (l : List α) (l2 : List β), l.mapM f = some l2 →
      (∀ y ∈ l2, ∃ x ∈ l, f x = some y) ∧ (∀ x ∈ l, ∃ y ∈ l2, f x = some y) := by
  intro l
  induction l with
  | nil =>
    intro l2 h
    simp only [List.mapM_nil, pure, Option.some.injEq] at h
    subst h
    simp
  | cons a l ih =>
    intro l2 h
    rw [List.mapM_cons] at h
    cases hfa : f a with
    | none => rw [hfa] at h; simp at h
    | some b =>
      rw [hfa] at h
      cases hml : l.mapM f with
      | none => rw [hml] at h; simp at h
      | some bs =>
        rw [hml] at h
        simp at h
        obtain ⟨h1, h2⟩ := ih bs hml
        subst h
        constructor
        · intro y hy
          rcases List.mem_cons.1 hy with rfl | hy
          · exact ⟨a, List.mem_cons_self a l, hfa⟩
          · obtain ⟨x, hx, hfx⟩ := h1 y hy
            exact ⟨x, List.mem_cons_of_mem a hx, hfx⟩
        · intro x hx
          rcases List.mem_cons.1 hx with rfl | hx
          · exact ⟨b, List.mem_cons_self b bs, hfa⟩
          · obtain ⟨y, hy, hfy⟩ := h2 x hx
            exact ⟨y, List.mem_cons_of_mem b hy, hfy⟩

/-- A defined torch.topk block has exactly k entries and requires the row to
hold at least k classes. -/
lemma torch_topk_length (k : Nat) (row : List Rat) (out : List (Nat × Rat))
    (h : torch_topk k row = some out) : out.length = k ∧ k ≤ row.length := by
  unfold torch_topk at h
  by_cases hk : k ≤ row.length
  · rw [if_pos hk] at h
    simp only [Option.some.injEq] at h
    subst h
    refine ⟨?_, hk⟩
    rw [List.length_take, List.length_insertionSort, List.enum_length]
    omega
  · rw [if_neg hk] at h
    exact absurd h (by simp)

/-- A defined ONNX top-5 block has exactly 5 indices and 5 probabilities and
requires the row to hold at least 5 classes. -/
lemma onnx_top5_row_length (row : List Rat) (out : List Nat × List Rat)
    (h : onnx_top5_row row = some out) :
    out.1.length = 5 ∧ out.2.length = 5 ∧ 5 ≤ row.length := by
  unfold onnx_top5_row np_argpartition_tail at h
  by_cases hk : 5 ≤ row.length
  · rw [if_pos hk] at h
    simp only [Option.some.injEq] at h
    subst h
    refine ⟨?_, ?_, hk⟩
    · simp only [take_along, np_argsort, List.length_map, List.length_reverse,
        List.length_drop, List.length_insertionSort, List.enum_length]
      omega
    · simp only [take_along, np_argsort, List.length_map, List.length_reverse,
        List.length_drop, List.length_insertionSort, List.enum_length]
      omega
  · rw [if_neg hk] at h
    exact absurd h (by simp)

/-- C9 counterexample: with 3 configured classes (fewer than 5) no successful
response is produced at all: torch.topk and np.argpartition both reject k=5,
both wrappers convert that to failure, and the endpoint answers 500 -- the
response rows are never min(5, n_classes) = 3 long. -/
theorem top5_fails_below_five_classes :
    predict_with_torchscript (.ok ⟨[[1, 0, 0]], [[1/2, 1/4, 1/4]], 0⟩) =
      .err "TorchScript inference failed: selected index k out of range" ∧
    predict_with_onnx (.ok ⟨[[1, 0, 0]], [[1/2, 1/4, 1/4]], 0⟩) =
      .err "ONNX inference failed: kth out of bounds" ∧
    (predict_authenticated ⟨false, 100, 3600⟩ ⟨1, 1, 3⟩
        (fun _ => .ok ⟨[[1, 0, 0]], [[1/2, 1/4, 1/4]], 0⟩)
        (fun _ => .ok ⟨[[1, 0, 0]], [[1/2, 1/4, 1/4]], 0⟩)
        [] [] none ⟨[[[[1/2]]]], [[[0, 0]]], [[[[0, 0]]]], [1]⟩ 0).1 =
      .error ⟨500, "ONNX inference failed: kth out of bounds"⟩ ∧
    (3 : Nat) < 5 :=
  ⟨rfl, rfl, rfl, by decide⟩

/-- C9 amended: every successful backend result carries top-index rows of
length exactly 5 (not min(5, n_classes)), and success forces every
probability row to hold at least 5 classes. -/
theorem top5_rows_length_five (e : Except String EngineOut) (r : InferSuccess)
    (h : predict_with_torchscript e = .ok r ∨ predict_with_onnx e = .ok r) :
    (∀ row ∈ r.top_indices, row.length = 5) ∧
    (∀ prow ∈ r.probabilities, 5 ≤ prow.length) := by
  rcases h with h | h
  · match e with
    | .error msg => simp [predict_with_torchscript] at h
    | .ok out =>
      match hb : torch_topk_batch 5 out.probabilities with
      | none => simp [predict_with_torchscript, hb] at h
      | some tops =>
        simp only [predict_with_torchscript, hb, InferResult.ok.injEq] at h
        obtain ⟨hfrom, hto⟩ := mapM_some_mem (torch_topk 5) out.probabilities tops hb
        constructor
        · intro row hrow
          rw [← h] at hrow
          simp only [List.mem_map] at hrow
          obtain ⟨t, ht, hmap⟩ := hrow
          obtain ⟨prow, _, hpt⟩ := hfrom t ht
          rw [← hmap, List.length_map]
          exact (torch_topk_length 5 prow t hpt).1
        · intro prow hprow
          rw [← h] at hprow
          obtain ⟨t, _, hpt⟩ := hto prow hprow
          exact (torch_topk_length 5 prow t hpt).2
  · match e with
    | .error msg => simp [predict_with_onnx] at h
    | .ok out =>
      match hb : onnx_top5_batch out.probabilities with
      | none => simp [predict_with_onnx, hb] at h
      | some tops =>
        simp only [predict_with_onnx, hb, InferResult.ok.injEq] at h
        obtain ⟨hfrom, hto⟩ := mapM_some_mem onnx_top5_row out.probabilities tops hb
        constructor
        · intro row hrow
          rw [← h] at hrow
          simp only [List.mem_map] at hrow
          obtain ⟨t, ht, hmap⟩ := hrow
          obtain ⟨prow, _, hpt⟩ := hfrom t ht
          rw [← hmap]
          exact (onnx_top5_row_length prow t hpt).1
        · intro prow hprow
          rw [← h] at hprow
          obtain ⟨t, _, hpt⟩ := hto prow hprow
          exact (onnx_top5_row_length prow t hpt).2.2

/-- Witness for the amended C9 on a five-class success of the primary path
(all probabilities distinct, so the expected block is independent of any tie
order). -/
theorem top5_rows_length_five_witness :
    (predict_with_torchscript
        (.ok ⟨[[1, 0, 0, 0, 0]],
          [[mkRat 5 15, mkRat 4 15, mkRat 3 15, mkRat 2 15, mkRat 1 15]], 0⟩) =
      .ok ⟨0, [[1, 0, 0, 0, 0]],
        [[mkRat 5 15, mkRat 4 15, mkRat 3 15, mkRat 2 15, mkRat 1 15]],
        [[0, 1, 2, 3, 4]],
        [[mkRat 5 15, mkRat 4 15, mkRat 3 15, mkRat 2 15, mkRat 1 15]],
        "torchscript"⟩ ∨
      predict_with_onnx
        (.ok ⟨[[1, 0, 0, 0, 0]],
          [[mkRat 5 15, mkRat 4 15, mkRat 3 15, mkRat 2 15, mkRat 1 15]], 0⟩) =
      .ok ⟨0, [[1, 0, 0, 0, 0]],
        [[mkRat 5 15, mkRat 4 15, mkRat 3 15, mkRat 2 15, mkRat 1 15]],
        [[0, 1, 2, 3, 4]],
        [[mkRat 5 15, mkRat 4 15, mkRat 3 15, mkRat 2 15, mkRat 1 15]],
        "torchscript"⟩) ∧
    ((∀ row ∈ (⟨0, [[1, 0, 0, 0, 0]],
        [[mkRat 5 15, mkRat 4 15, mkRat 3 15, mkRat 2 15, mkRat 1 15]],
        [[0, 1, 2, 3, 4]],
        [[mkRat 5 15, mkRat 4 15, mkRat 3 15, mkRat 2 15, mkRat 1 15]],
        "torchscript"⟩ : InferSuccess).top_indices, row.length = 5) ∧
      (∀ prow ∈ (⟨0, [[1, 0, 0, 0, 0]],
        [[mkRat 5 15, mkRat 4 15, mkRat 3 15, mkRat 2 15, mkRat 1 15]],
        [[0, 1, 2, 3, 4]],
        [[mkRat 5 15, mkRat 4 15, mkRat 3 15, mkRat 2 15, mkRat 1 15]],
        "torchscript"⟩ : InferSuccess).probabilities, 5 ≤ prow.length)) :=
  ⟨Or.inl (by decide),
    top5_rows_length_five
      (.ok ⟨[[1, 0, 0, 0, 0]],
        [[mkRat 5 15, mkRat 4 15, mkRat 3 15, mkRat 2 15, mkRat 1 15]], 0⟩)
      ⟨0, [[1, 0, 0, 0, 0]],
        [[mkRat 5 15, mkRat 4 15, mkRat 3 15, mkRat 2 15, mkRat 1 15]],
        [[0, 1, 2, 3, 4]],
        [[mkRat 5 15, mkRat 4 15, mkRat 3 15, mkRat 2 15, mkRat 1 15]],
        "torchscript"⟩
      (Or.inl (by decide))⟩

/-- A defined torch.topk block is sorted by probability descending (the only
ordering torch documents; the order among exactly equal values is a modeling
refinement on which nothing here depends). -/
lemma torch_topk_sorted (k : Nat) (row : List Rat)
    (out : List (Nat × Rat)) (h : torch_topk k row = some out) :
    SortedDescProbs (out.map Prod.snd) := by
  unfold torch_topk at h
  by_cases hk : k ≤ row.length
  · rw [if_pos hk] at h
    simp only [Option.some.injEq] at h
    subst h
    have hsorted : (List.insertionSort topkLe row.enum).Pairwise topkLe :=
      List.sorted_insertionSort topkLe row.enum
    have htake := hsorted.sublist (List.take_sublist k _)
    rw [SortedDescProbs, List.pairwise_map]
    refine (htake.imp ?_)
    intro a b hab
    rcases hab with hlt | ⟨heq, _⟩
    · exact le_of_lt hlt
    · exact le_of_eq heq.symm
  · rw [if_neg hk] at h
    exact absurd h (by simp)

/-- Gathering a row through its stable ascending argsort yields exactly the
value column of the stably sorted enumerated row. -/
lemma take_along_np_argsort (xs : List Rat) :
    take_along (np_argsort xs) xs =
      (List.insertionSort ascLe xs.enum).map Prod.snd := by
  unfold take_along np_argsort
  rw [List.map_map]
  refine List.map_congr_left ?_
  intro e he
  have hmem : e ∈ xs.enum := (List.mem_insertionSort ascLe).1 he
  have hget : xs[e.1]? = some e.2 := List.mem_enum_iff_getElem?.1 hmem
  simp only [Function.comp_apply, List.getD_eq_getElem?_getD, hget,
    Option.getD_some]

/-- A defined ONNX top-5 block has its probabilities sorted descending: the
final step reverses an ascending sort of the selected block. -/
lemma onnx_top5_row_sorted (row : List Rat) (out : List Nat × List Rat)
    (h : onnx_top5_row row = some out) : SortedDescProbs out.2 := by
  unfold onnx_top5_row at h
  cases hap : np_argpartition_tail 5 row with
  | none => rw [hap] at h; exact absurd h (by simp)
  | some sel =>
    rw [hap] at h
    simp only [Option.some.injEq] at h
    subst h
    show SortedDescProbs (take_along ((np_argsort (take_along sel row)).reverse)
      (take_along sel row))
    have hrev : take_along ((np_argsort (take_along sel row)).reverse)
        (take_along sel row) =
        (take_along (np_argsort (take_along sel row)) (take_along sel row)).reverse := by
      unfold take_along
      rw [List.map_reverse]
    rw [hrev, take_along_np_argsort]
    have hsorted : (List.insertionSort ascLe (take_along sel row).enum).Pairwise
        ascLe := List.sorted_insertionSort ascLe _
    have hsnd : ((List.insertionSort ascLe (take_along sel row).enum).map
        Prod.snd).Pairwise (fun a b => a ≤ b) := by
      rw [List.pairwise_map]
      refine hsorted.imp ?_
      intro a b hab
      rcases hab with hlt | ⟨heq, _⟩
      · exact le_of_lt hlt
      · exact le_of_eq heq
    rw [SortedDescProbs, List.pairwise_reverse]
    exact hsnd

